import Mathlib

/-!
Shallow embedding of `app.py` of the plastic reuse/recycle/resale prediction
web backend, together with proofs of the specification claims about it.

Python numbers are modelled as rationals, Python values that can travel in a
JSON payload as the inductive `PyVal`, raised exceptions as `Except.error`
carrying the exception message, and the pickled scikit-learn artifacts as
abstract transform/predict functions over an abstract encoded-feature type.
-/

set_option autoImplicit false

namespace App

/-- A Python value as it can appear in a parsed JSON request payload
(or as the `None` produced by `dict.get` for a missing key). -/
inductive PyVal where
  | none
  | bool (b : Bool)
  | num (q : ℚ)
  | str (s : String)
  | arr (xs : List PyVal)
  | obj (fields : List (String × PyVal))

/-- Python truthiness (`bool(v)`): `None`, `False`, zero, the empty string and
empty containers are falsy, everything else truthy. -/
def pyTruthy : PyVal → Bool
  | .none => false
  | .bool b => b
  | .num q => q != 0
  | .str s => s != ""
  | .arr xs => !xs.isEmpty
  | .obj fs => !fs.isEmpty

/-- Python's `v or w`: `w` when `v` is falsy, else `v`. -/
def pyOr (v w : PyVal) : PyVal :=
  if pyTruthy v then v else w

/-- Python's `s.strip()`: remove leading and trailing whitespace. -/
def pyStrip (s : String) : String :=
  ⟨((s.data.dropWhile Char.isWhitespace).reverse.dropWhile Char.isWhitespace).reverse⟩

/-- Python's `s.lower()` (on the ASCII letters the vocabulary uses). -/
def pyLower (s : String) : String :=
  ⟨s.data.map Char.toLower⟩

/-- Value of a digit string, most significant digit first. -/
def digitsVal (cs : List Char) : ℕ :=
  cs.foldl (fun a c => a * 10 + (c.toNat - 48)) 0

/-- The rational `m * 10 ^ e`: the exact value of a decimal float literal
with integer mantissa `m` and decimal exponent `e`. -/
def decToRat (m : ℤ) (e : ℤ) : ℚ :=
  match e with
  | .ofNat n => (m : ℚ) * 10 ^ n
  | .negSucc n => Rat.divInt m (10 ^ (n + 1))

/-- Parse the optional exponent tail of a float literal (empty, or
`e`/`E` followed by an optionally signed digit string). -/
def parseExpTail : List Char → Option ℤ
  | [] => some 0
  | c :: rest =>
    if c = 'e' ∨ c = 'E' then
      match rest with
      | '+' :: ds =>
        if !ds.isEmpty ∧ ds.all Char.isDigit then some (digitsVal ds) else Option.none
      | '-' :: ds =>
        if !ds.isEmpty ∧ ds.all Char.isDigit then some (-(digitsVal ds : ℤ)) else Option.none
      | ds =>
        if !ds.isEmpty ∧ ds.all Char.isDigit then some (digitsVal ds) else Option.none
    else Option.none

/-- Parse an unsigned float literal body: digits, with an optional fractional
part and an optional exponent, as accepted by Python's `float()` on finite
decimal literals (the non-finite literals `inf`/`nan` have no rational value
and are outside this model). -/
def parseUnsigned (cs : List Char) : Option ℚ :=
  let ip := cs.takeWhile Char.isDigit
  let rest := cs.dropWhile Char.isDigit
  match rest with
  | '.' :: rest2 =>
    let fp := rest2.takeWhile Char.isDigit
    let rest3 := rest2.dropWhile Char.isDigit
    if ip.isEmpty ∧ fp.isEmpty then Option.none
    else
      match parseExpTail rest3 with
      | some e =>
        some (decToRat ((digitsVal ip : ℤ) * 10 ^ fp.length + digitsVal fp) (e - fp.length))
      | Option.none => Option.none
  | _ =>
    if ip.isEmpty then Option.none
    else
      match parseExpTail rest with
      | some e => some (decToRat (digitsVal ip) e)
      | Option.none => Option.none

/-- `float(s)` for a string argument: surrounding whitespace is stripped, then
an optionally signed float literal is parsed; `Option.none` models the
`ValueError` raised on a non-numeric string. -/
def parsePyFloat (s : String) : Option ℚ :=
  match (pyStrip s).data with
  | '+' :: cs => parseUnsigned cs
  | '-' :: cs => (parseUnsigned cs).map Neg.neg
  | cs => parseUnsigned cs

/-- Python's `float(v)`: numbers are returned as-is, booleans become 0/1,
strings are parsed (`ValueError` on failure), anything else is a `TypeError`.
Errors carry the exception message. -/
def pyFloat : PyVal → Except String ℚ
  | .bool b => .ok (if b then 1 else 0)
  | .num q => .ok q
  | .str s =>
    match parsePyFloat s with
    | some q => .ok q
    | Option.none => .error ("could not convert string to float: " ++ s)
  | _ => .error "float() argument must be a string or a real number"

/-- Round a rational to the nearest integer, ties to even
(Python's `round` on an exactly-represented value). -/
def roundHalfEven (q : ℚ) : ℤ :=
  let f := ⌊q⌋
  let r := q - f
  if r < 1 / 2 then f
  else if r > 1 / 2 then f + 1
  else if f % 2 = 0 then f else f + 1

/-- `round(x, 2)`: round to two decimal places, ties to even. -/
def round2 (q : ℚ) : ℚ :=
  (roundHalfEven (100 * q) : ℚ) / 100

/-- The single-row DataFrame built by `build_input_df`: one named value per
column; a key missing from the payload yields `PyVal.none` in that column. -/
structure ItemRecord where
  plasticType : PyVal
  condition : PyVal
  weightKg : PyVal
  ageMonths : PyVal
  originalPrice : PyVal
  location : PyVal

/-- A deserialized preprocessing artifact: its `transform` step over a raw
record, producing an encoded feature row of abstract type `F` or raising. -/
structure Preprocessor (F : Type) where
  transform : ItemRecord → Except String F

/-- A deserialized predictive-model artifact: `float(m.predict(X_enc)[0])`,
i.e. the first predicted value as a number, or a raised exception. -/
structure MLModel (F : Type) where
  predictFirst : F → Except String ℚ

/-- The process-wide globals `preprocessor`, `models`, `models_loaded`. -/
structure AppState (F : Type) where
  preprocessor : Option (Preprocessor F)
  models : List (String × MLModel F)
  models_loaded : Bool

/-- The initial global state before `try_load_models` runs. -/
def initState (F : Type) : AppState F :=
  { preprocessor := Option.none, models := [], models_loaded := false }

def MODELS_DIR : String := "models"

def PREPROCESSOR_PKL : String := MODELS_DIR ++ "/" ++ "preprocessor.pkl"

def MODEL_FILES : List (String × String) :=
  [("Resale_Value", MODELS_DIR ++ "/" ++ "Resale_Value_GradientBoosting_Model.pkl"),
   ("Recycle_Value", MODELS_DIR ++ "/" ++ "Recycle_Value_GradientBoosting_Model.pkl"),
   ("Reuse_Score", MODELS_DIR ++ "/" ++ "Reuse_Score_GradientBoosting_Model.pkl")]

/-- The load-time environment: which artifact files exist on disk, and what
`joblib.load` yields for each (`Option.none` models a raised exception).
The preprocessor and model files deserialize to different artifact kinds,
so their outcomes are given by separate fields. -/
structure LoadEnv (F : Type) where
  isfile : String → Bool
  loadPre : String → Option (Preprocessor F)
  loadModel : String → Option (MLModel F)

/-- The `for k, p in MODEL_FILES.items()` loop body of `try_load_models`:
loads each model into the `models` dict in turn; on a missing file or a
failed load the exception aborts the loop, keeping the entries added so far. -/
def loadModelsLoop {F : Type} (env : LoadEnv F) :
    List (String × String) → List (String × MLModel F) →
    Except (List (String × MLModel F)) (List (String × MLModel F))
  | [], acc => .ok acc
  | (k, p) :: rest, acc =>
    if env.isfile p then
      match env.loadModel p with
      | some m => loadModelsLoop env rest (acc ++ [(k, m)])
      | Option.none => .error acc
    else .error acc

/-- `try_load_models()`: attempt to load the preprocessor and the three models
into the globals; any exception is caught and leaves `models_loaded = False`.
Mutations made before the exception (the loaded preprocessor, models already
inserted) are kept, exactly as the Python globals keep them. -/
def try_load_models {F : Type} (env : LoadEnv F) (st : AppState F) : AppState F :=
  let preStep : Except (AppState F) (AppState F) :=
    if env.isfile PREPROCESSOR_PKL then
      match env.loadPre PREPROCESSOR_PKL with
      | some pre => .ok { st with preprocessor := some pre }
      | Option.none => .error st
    else .error st
  match preStep with
  | .error s => { s with models_loaded := false }
  | .ok s1 =>
    match loadModelsLoop env MODEL_FILES s1.models with
    | .error ms => { s1 with models := ms, models_loaded := false }
    | .ok ms => { s1 with models := ms, models_loaded := true }

/-- `condition_mapping = {'cracked': 1, 'used': 2, 'good': 3, 'new': 4}`. -/
def condition_mapping : List (String × ℕ) :=
  [("cracked", 1), ("used", 2), ("good", 3), ("new", 4)]

/-- Python's `str(v)` for the values a JSON payload can hold, as far as the
condition-mapping step can observe it. -/
def pyStr : PyVal → String
  | .none => "None"
  | .bool b => if b then "True" else "False"
  | .num q => toString q
  | .str s => s
  | .arr _ => "[...]"
  | .obj _ => "{...}"

/-- `_map_cond(v)`: `0` for a missing value, otherwise look up
`str(v).lower().strip()` in `condition_mapping` with default `0`. -/
def mapCondVal : PyVal → ℕ
  | .none => 0
  | v => ((condition_mapping.lookup (pyStrip (pyLower (pyStr v)))).getD 0)

/-- `X["Condition"] = X["Condition"].apply(_map_cond)`. -/
def applyCondMapping (r : ItemRecord) : ItemRecord :=
  { r with condition := .num (mapCondVal r.condition) }

/-- `payload.get(k)` inside `build_input_df`: a dict returns the value or
`None`; any non-mapping payload raises `AttributeError` at the first `.get`. -/
def payloadGet (payload : PyVal) (k : String) : Except String PyVal :=
  match payload with
  | .obj fs => .ok ((fs.lookup k).getD .none)
  | _ => .error "object has no attribute get"

/-- `build_input_df(payload)`: extract the six named keys into the one-row
record; missing keys become missing values, a non-mapping payload raises. -/
def build_input_df (payload : PyVal) : Except String ItemRecord := do
  let pt ← payloadGet payload "ptype"
  let cond ← payloadGet payload "condition"
  let w ← payloadGet payload "weight"
  let a ← payloadGet payload "age"
  let p ← payloadGet payload "price"
  let loc ← payloadGet payload "location"
  .ok { plasticType := pt, condition := cond, weightKg := w,
        ageMonths := a, originalPrice := p, location := loc }

/-- `float(r.get(col) or 0)`: the fallback's coercion of one numeric column. -/
def coerceNumField (v : PyVal) : Except String ℚ :=
  pyFloat (pyOr v (.num 0))

/-- The `else` branch of `predict_all_targets`: the closed-form fallback. -/
def fallbackPredict (r : ItemRecord) : Except String (List (String × ℚ)) := do
  let price ← coerceNumField r.originalPrice
  let weight ← coerceNumField r.weightKg
  let age ← coerceNumField r.ageMonths
  .ok [("Resale_Value", round2 (max 0 (price * 0.2 - age * 0.1))),
       ("Recycle_Value", round2 (max 0 (weight * 12.0))),
       ("Reuse_Score", round2 (max 0 (100 - age)))]

/-- `for k, m in models.items(): out[k] = float(m.predict(X_enc)[0])`. -/
def runModels {F : Type} (enc : F) :
    List (String × MLModel F) → Except String (List (String × ℚ))
  | [] => .ok []
  | (k, m) :: rest => do
    let y ← m.predictFirst enc
    let out ← runModels enc rest
    .ok ((k, y) :: out)

/-- The guard `models_loaded and preprocessor is not None and models`. -/
def usesModelBranch {F : Type} (st : AppState F) : Bool :=
  st.models_loaded && st.preprocessor.isSome && !st.models.isEmpty

/-- `predict_all_targets(df_raw)`: model-backed prediction when the guard
holds (condition mapped to its ordinal, then transform, then each model's
first prediction), otherwise the closed-form fallback. -/
def predict_all_targets {F : Type} (st : AppState F) (r : ItemRecord) :
    Except String (List (String × ℚ)) :=
  match st.preprocessor, st.models_loaded && !st.models.isEmpty with
  | some pre, true => do
    let enc ← pre.transform (applyCondMapping r)
    runModels enc st.models
  | _, _ => fallbackPredict r

/-- A JSON value in a response body. -/
inductive RVal where
  | rnull
  | rbool (b : Bool)
  | rnum (q : ℚ)
  | rstr (s : String)
deriving DecidableEq

/-- An HTTP response: a status code and a JSON object body. -/
structure HttpResp where
  status : ℕ
  body : List (String × RVal)
deriving DecidableEq

/-- `preds.get(k)` serialized into the response (`None` becomes JSON null). -/
def optNum (v : Option ℚ) : RVal :=
  match v with
  | some q => .rnum q
  | Option.none => .rnull

/-- The body of the second `try` block: `build_input_df` then
`predict_all_targets`, either of which may raise. -/
def runPipeline {F : Type} (st : AppState F) (payload : PyVal) :
    Except String (List (String × ℚ)) := do
  let df ← build_input_df payload
  predict_all_targets st df

/-- The `POST /predict` handler. Its input is the outcome of
`request.get_json(force=True)`: `Option.none` when the body is not valid
JSON (the raised exception), `some payload` otherwise. -/
def predictRoute {F : Type} (st : AppState F) (body : Option PyVal) : HttpResp :=
  match body with
  | Option.none => { status := 400, body := [("error", .rstr "Invalid JSON")] }
  | some payload =>
    match runPipeline st payload with
    | .error e =>
      { status := 500,
        body := [("error", .rstr "Prediction failed"), ("details", .rstr e)] }
    | .ok preds =>
      { status := 200,
        body := [("resale_value", optNum (preds.lookup "Resale_Value")),
                 ("recycle_score", optNum (preds.lookup "Recycle_Value")),
                 ("reuse_score", optNum (preds.lookup "Reuse_Score")),
                 ("models_loaded", .rbool st.models_loaded)] }

/-- The template directory and renderer seen by the page routes: which
template files exist, what rendering them produces (`Option.none` models a
Jinja rendering failure), and each file's raw bytes. -/
structure TemplateEnv where
  isfile : String → Bool
  render : String → Option String
  raw : String → String

/-- A page response: body text and status code. -/
structure PageResp where
  body : String
  status : ℕ
deriving DecidableEq

/-- `render_or_static(fname)`: render the template if the file exists,
serving the raw file if rendering raises; 404 when the file is absent. -/
def render_or_static (tenv : TemplateEnv) (fname : String) : PageResp :=
  if tenv.isfile fname then
    match tenv.render fname with
    | some html => { body := html, status := 200 }
    | Option.none => { body := tenv.raw fname, status := 200 }
  else { body := "Template not found on server", status := 404 }

/-- The `GET /` handler. -/
def index (tenv : TemplateEnv) : PageResp :=
  render_or_static tenv "index.html"

/-- The catch-all `GET /<path:subpath>` handler: serve the matching template
when it exists and ends in `.html`, otherwise serve the home page. -/
def catch_all (tenv : TemplateEnv) (subpath : String) : PageResp :=
  if tenv.isfile subpath && String.endsWith subpath ".html" then
    render_or_static tenv subpath
  else render_or_static tenv "index.html"

/-! ### Distinguished inputs and states used by the proofs -/

/-- An `ItemRecord` whose three numeric columns hold the given values and
whose other columns are arbitrary; `Option.none` models a missing key. -/
def numRecord (pt c loc : PyVal) (p a w : Option ℚ) : ItemRecord :=
  { plasticType := pt, condition := c,
    weightKg := (w.map PyVal.num).getD .none,
    ageMonths := (a.map PyVal.num).getD .none,
    originalPrice := (p.map PyVal.num).getD .none,
    location := loc }

/-- A state with the models unloaded (the artifact type is irrelevant). -/
def stUnloaded : AppState Unit := initState Unit

/-- A field value the fallback coercion accepts: falsy, a number, or a
parseable numeric string. -/
def fallbackCoercible (v : PyVal) : Prop :=
  pyTruthy v = false ∨ (∃ q, v = .num q) ∨
    (∃ s, v = .str s ∧ (parsePyFloat s).isSome)

/-- `payload` is a JSON mapping (a Python `dict`, the only payload with a
`.get` method). -/
def isMapping : PyVal → Bool
  | .obj _ => true
  | _ => false

/-- A load environment in which the preprocessor and the first model file
exist and deserialize, but the second model file is missing. -/
def envPartial : LoadEnv Unit :=
  { isfile := fun p =>
      p == PREPROCESSOR_PKL ||
        p == MODELS_DIR ++ "/" ++ "Resale_Value_GradientBoosting_Model.pkl",
    loadPre := fun _ => some ⟨fun _ => .ok ()⟩,
    loadModel := fun _ => some ⟨fun _ => .ok 0⟩ }

/-- A load environment in which no artifact file exists. -/
def envEmpty : LoadEnv Unit :=
  { isfile := fun _ => false,
    loadPre := fun _ => Option.none,
    loadModel := fun _ => Option.none }

/-- A template directory with no files. -/
def tenvEmpty : TemplateEnv :=
  { isfile := fun _ => false,
    render := fun _ => Option.none,
    raw := fun _ => "" }

/-- The fallback's output on an empty payload (all three numbers zero). -/
def fbZeroPreds : List (String × ℚ) :=
  [("Resale_Value", round2 (max 0 ((0 : ℚ) * 0.2 - 0 * 0.1))),
   ("Recycle_Value", round2 (max 0 ((0 : ℚ) * 12.0))),
   ("Reuse_Score", round2 (max 0 (100 - (0 : ℚ))))]

/-! ### Helper lemmas -/

theorem roundHalfEven_intCast (z : ℤ) : roundHalfEven (z : ℚ) = z := by
  unfold roundHalfEven
  simp [Int.floor_intCast]

theorem round2_of_eq_intCast {q : ℚ} {z : ℤ} (h : 100 * q = (z : ℚ)) :
    round2 q = (z : ℚ) / 100 := by
  unfold round2
  rw [h, roundHalfEven_intCast]

theorem roundHalfEven_nonneg {q : ℚ} (h : 0 ≤ q) : 0 ≤ roundHalfEven q := by
  unfold roundHalfEven
  have hf : (0 : ℤ) ≤ ⌊q⌋ := Int.le_floor.mpr (by exact_mod_cast h)
  dsimp only
  split
  · exact hf
  · split
    · omega
    · split
      · exact hf
      · omega

theorem round2_nonneg {q : ℚ} (h : 0 ≤ q) : 0 ≤ round2 q := by
  unfold round2
  have h1 : (0 : ℤ) ≤ roundHalfEven (100 * q) :=
    roundHalfEven_nonneg (by positivity)
  have h2 : (0 : ℚ) ≤ (roundHalfEven (100 * q) : ℚ) := by exact_mod_cast h1
  positivity

/-- In fallback mode a numeric field coerces to its value, a missing field
to zero. -/
theorem coerceNumField_num (q : ℚ) : coerceNumField (.num q) = .ok q := by
  unfold coerceNumField pyOr pyTruthy pyFloat
  by_cases h : q = 0 <;> simp [h]

theorem coerceNumField_none : coerceNumField .none = .ok 0 := rfl

theorem coerceNumField_falsy {v : PyVal} (h : pyTruthy v = false) :
    coerceNumField v = .ok 0 := by
  unfold coerceNumField pyOr
  rw [h]
  rfl

/-- When `models_loaded` is false, `predict_all_targets` takes the fallback
branch. -/
theorem predict_all_targets_fallback {F : Type} (st : AppState F)
    (h : st.models_loaded = false) (r : ItemRecord) :
    predict_all_targets st r = fallbackPredict r := by
  unfold predict_all_targets
  rw [h]
  simp only [Bool.false_and]
  cases st.preprocessor <;> rfl

theorem coerceNumField_optNum (p : Option ℚ) :
    coerceNumField ((p.map PyVal.num).getD .none) = .ok (p.getD 0) := by
  cases p with
  | none => exact coerceNumField_none
  | some q => exact coerceNumField_num q

/-- The fallback on numeric (or missing) columns computes exactly the three
spec formulas. -/
theorem fallbackPredict_numeric (pt c loc : PyVal) (p a w : Option ℚ) :
    fallbackPredict (numRecord pt c loc p a w) =
      .ok [("Resale_Value", round2 (max 0 (p.getD 0 * 0.2 - a.getD 0 * 0.1))),
           ("Recycle_Value", round2 (max 0 (w.getD 0 * 12.0))),
           ("Reuse_Score", round2 (max 0 (100 - a.getD 0)))] := by
  unfold fallbackPredict numRecord
  simp only [coerceNumField_optNum]
  rfl

theorem round2_intCast (z : ℤ) : round2 (z : ℚ) = (z : ℚ) := by
  rw [round2_of_eq_intCast (show (100 : ℚ) * (z : ℚ) = ((100 * z : ℤ) : ℚ) by push_cast; ring)]
  push_cast
  ring

theorem parsePyFloat_empty : parsePyFloat "" = Option.none := rfl

/-- A parseable string is coerced by the fallback to its parsed value. -/
theorem coerceNumField_str_parsed {s : String} {q : ℚ}
    (h : parsePyFloat s = some q) : coerceNumField (.str s) = .ok q := by
  have hne : s ≠ "" := by
    intro he
    rw [he, parsePyFloat_empty] at h
    exact Option.noConfusion h
  have hs : (s != "") = true := by simpa using hne
  simp [coerceNumField, pyOr, pyTruthy, hs, pyFloat, h]

theorem coerceNumField_ok_of_coercible {v : PyVal} (h : fallbackCoercible v) :
    ∃ q, coerceNumField v = .ok q := by
  rcases h with hf | ⟨q, rfl⟩ | ⟨s, rfl, hp⟩
  · refine ⟨0, ?_⟩
    unfold coerceNumField pyOr
    rw [hf]
    rfl
  · exact ⟨q, coerceNumField_num q⟩
  · obtain ⟨q, hq⟩ := Option.isSome_iff_exists.mp hp
    exact ⟨q, coerceNumField_str_parsed hq⟩

/-- The fallback succeeds as soon as its three coercions succeed. -/
theorem fallbackPredict_ok_of_coercible {r : ItemRecord}
    (hp : fallbackCoercible r.originalPrice)
    (hw : fallbackCoercible r.weightKg)
    (ha : fallbackCoercible r.ageMonths) :
    ∃ l, fallbackPredict r = .ok l ∧
      l.map Prod.fst = ["Resale_Value", "Recycle_Value", "Reuse_Score"] := by
  obtain ⟨qp, hqp⟩ := coerceNumField_ok_of_coercible hp
  obtain ⟨qw, hqw⟩ := coerceNumField_ok_of_coercible hw
  obtain ⟨qa, hqa⟩ := coerceNumField_ok_of_coercible ha
  refine ⟨[("Resale_Value", round2 (max 0 (qp * 0.2 - qa * 0.1))),
          ("Recycle_Value", round2 (max 0 (qw * 12.0))),
          ("Reuse_Score", round2 (max 0 (100 - qa)))], ?_, rfl⟩
  unfold fallbackPredict
  rw [hqp, hqw, hqa]
  rfl

/-- `build_input_df` on a mapping payload never raises and extracts the six
keys, missing ones as missing values. -/
theorem build_input_df_obj (fs : List (String × PyVal)) :
    build_input_df (.obj fs) =
      .ok { plasticType := (fs.lookup "ptype").getD .none,
            condition := (fs.lookup "condition").getD .none,
            weightKg := (fs.lookup "weight").getD .none,
            ageMonths := (fs.lookup "age").getD .none,
            originalPrice := (fs.lookup "price").getD .none,
            location := (fs.lookup "location").getD .none } := rfl

/-- Full characterization of one `try_load_models` run from the initial
state: the flag is set iff all four artifacts load, and the model-backed
guard agrees with the flag afterwards. -/
theorem try_load_models_spec {F : Type} (env : LoadEnv F) :
    ((try_load_models env (initState F)).models_loaded = true ↔
      (env.isfile PREPROCESSOR_PKL = true ∧
        (env.loadPre PREPROCESSOR_PKL).isSome = true ∧
        ∀ kp ∈ MODEL_FILES,
          env.isfile kp.2 = true ∧ (env.loadModel kp.2).isSome = true)) ∧
    usesModelBranch (try_load_models env (initState F)) =
      (try_load_models env (initState F)).models_loaded := by
  unfold try_load_models usesModelBranch MODEL_FILES loadModelsLoop initState
  cases h1 : env.isfile PREPROCESSOR_PKL <;>
    cases h2 : env.loadPre PREPROCESSOR_PKL <;>
      simp_all [loadModelsLoop] <;>
  cases h3 : env.isfile (MODELS_DIR ++ "/" ++ "Resale_Value_GradientBoosting_Model.pkl") <;>
    cases h4 : env.loadModel (MODELS_DIR ++ "/" ++ "Resale_Value_GradientBoosting_Model.pkl") <;>
      simp_all [loadModelsLoop] <;>
  cases h5 : env.isfile (MODELS_DIR ++ "/" ++ "Recycle_Value_GradientBoosting_Model.pkl") <;>
    cases h6 : env.loadModel (MODELS_DIR ++ "/" ++ "Recycle_Value_GradientBoosting_Model.pkl") <;>
      simp_all [loadModelsLoop] <;>
  cases h7 : env.isfile (MODELS_DIR ++ "/" ++ "Reuse_Score_GradientBoosting_Model.pkl") <;>
    cases h8 : env.loadModel (MODELS_DIR ++ "/" ++ "Reuse_Score_GradientBoosting_Model.pkl") <;>
      simp_all [loadModelsLoop]

theorem round2_zero : round2 0 = 0 := by
  have h := round2_intCast 0
  simpa using h

theorem decToRat_ofNat (m : ℤ) (n : ℕ) :
    decToRat m (Int.ofNat n) = (m : ℚ) * 10 ^ n := rfl

/-! ### Claims -/

/-- C1: For every request record in fallback mode (`models_loaded` false),
with price, age and weight read as numbers (a missing field treated as
zero), the returned mapping is exactly: resale value
`round2 (max 0 (price*0.2 - age*0.1))`, recycle value
`round2 (max 0 (weight*12.0))`, reuse score `round2 (max 0 (100 - age))`,
each rounded to 2 decimal places by `round2`. -/
theorem C1_fallback_formula {F : Type} (st : AppState F)
    (h : st.models_loaded = false) (pt c loc : PyVal) (p a w : Option ℚ) :
    predict_all_targets st (numRecord pt c loc p a w) =
      .ok [("Resale_Value", round2 (max 0 (p.getD 0 * 0.2 - a.getD 0 * 0.1))),
           ("Recycle_Value", round2 (max 0 (w.getD 0 * 12.0))),
           ("Reuse_Score", round2 (max 0 (100 - a.getD 0)))] := by
  rw [predict_all_targets_fallback st h, fallbackPredict_numeric]

/-- Witness for C1: price=100, age=10, weight=5 yields resale=19,
recycle=60, reuse=90. -/
theorem C1_fallback_formula_witness :
    stUnloaded.models_loaded = false ∧
    predict_all_targets stUnloaded
        (numRecord .none .none .none (some 100) (some 10) (some 5)) =
      .ok [("Resale_Value", 19), ("Recycle_Value", 60), ("Reuse_Score", 90)] := by
  refine ⟨rfl, ?_⟩
  rw [C1_fallback_formula stUnloaded rfl .none .none .none (some 100) (some 10) (some 5)]
  simp only [Option.getD_some]
  rw [show ((100 : ℚ) * 0.2 - 10 * 0.1) = ((19 : ℤ) : ℚ) by norm_num,
      show ((5 : ℚ) * 12.0) = ((60 : ℤ) : ℚ) by norm_num,
      show ((100 : ℚ) - 10) = ((90 : ℤ) : ℚ) by norm_num,
      max_eq_right (show (0 : ℚ) ≤ ((19 : ℤ) : ℚ) by norm_num),
      max_eq_right (show (0 : ℚ) ≤ ((60 : ℤ) : ℚ) by norm_num),
      max_eq_right (show (0 : ℚ) ≤ ((90 : ℤ) : ℚ) by norm_num),
      round2_intCast, round2_intCast, round2_intCast]
  norm_num

/-- C3: The condition mapping sends a string equal to "cracked"/"used"/
"good"/"new" after lower-casing and trimming to 1/2/3/4, every other string
and a missing value to 0. -/
theorem C3_condition_mapping :
    mapCondVal .none = 0 ∧
    ∀ s : String, mapCondVal (.str s) =
      (if pyStrip (pyLower s) = "cracked" then 1
       else if pyStrip (pyLower s) = "used" then 2
       else if pyStrip (pyLower s) = "good" then 3
       else if pyStrip (pyLower s) = "new" then 4
       else 0) := by
  refine ⟨rfl, fun s => ?_⟩
  show (condition_mapping.lookup (pyStrip (pyLower s))).getD 0 = _
  generalize pyStrip (pyLower s) = t
  by_cases h1 : t = "cracked"
  · subst h1; rfl
  by_cases h2 : t = "used"
  · subst h2; rfl
  by_cases h3 : t = "good"
  · subst h3; rfl
  by_cases h4 : t = "new"
  · subst h4; rfl
  rw [if_neg h1, if_neg h2, if_neg h3, if_neg h4]
  have b1 : (t == "cracked") = false := beq_eq_false_iff_ne.mpr h1
  have b2 : (t == "used") = false := beq_eq_false_iff_ne.mpr h2
  have b3 : (t == "good") = false := beq_eq_false_iff_ne.mpr h3
  have b4 : (t == "new") = false := beq_eq_false_iff_ne.mpr h4
  simp [condition_mapping, List.lookup, b1, b2, b3, b4]

/-- C7: Every fallback output is nonnegative for numeric inputs of any
sign; in particular price=-50, age=200, weight=-3 yields all zeros. -/
theorem C7_fallback_nonneg :
    (∀ {F : Type} (st : AppState F), st.models_loaded = false →
      ∀ (pt c loc : PyVal) (p a w : ℚ),
        ∃ l, predict_all_targets st
            (numRecord pt c loc (some p) (some a) (some w)) = .ok l ∧
          ∀ kv ∈ l, 0 ≤ kv.2) ∧
    predict_all_targets stUnloaded
        (numRecord .none .none .none (some (-50)) (some 200) (some (-3))) =
      .ok [("Resale_Value", 0), ("Recycle_Value", 0), ("Reuse_Score", 0)] := by
  constructor
  · intro F st h pt c loc p a w
    rw [predict_all_targets_fallback st h, fallbackPredict_numeric]
    refine ⟨_, rfl, ?_⟩
    intro kv hkv
    simp only [List.mem_cons, List.not_mem_nil, or_false] at hkv
    rcases hkv with rfl | rfl | rfl
    · exact round2_nonneg (le_max_left _ _)
    · exact round2_nonneg (le_max_left _ _)
    · exact round2_nonneg (le_max_left _ _)
  · rw [predict_all_targets_fallback stUnloaded rfl, fallbackPredict_numeric]
    simp only [Option.getD_some]
    rw [show ((-50 : ℚ) * 0.2 - 200 * 0.1) = -30 by norm_num,
        show ((-3 : ℚ) * 12.0) = -36 by norm_num,
        show ((100 : ℚ) - 200) = -100 by norm_num,
        max_eq_left (show (-30 : ℚ) ≤ 0 by norm_num),
        max_eq_left (show (-36 : ℚ) ≤ 0 by norm_num),
        max_eq_left (show (-100 : ℚ) ≤ 0 by norm_num),
        round2_zero]

/-- Witness for C7: the nonnegativity conjunct applied at price=1, age=2,
weight=3 in the unloaded state. -/
theorem C7_fallback_nonneg_witness :
    stUnloaded.models_loaded = false ∧
    ∃ l, predict_all_targets stUnloaded
        (numRecord .none .none .none (some 1) (some 2) (some 3)) = .ok l ∧
      ∀ kv ∈ l, 0 ≤ kv.2 :=
  ⟨rfl, C7_fallback_nonneg.1 stUnloaded rfl .none .none .none 1 2 3⟩

/-- C8: For a path with no `.html`-suffixed matching template file, the
catch-all handler returns the same response as `GET /`. -/
theorem C8_catch_all_home (tenv : TemplateEnv) (subpath : String)
    (h : ¬(tenv.isfile subpath = true ∧ String.endsWith subpath ".html" = true)) :
    catch_all tenv subpath = index tenv := by
  have hb : (tenv.isfile subpath && String.endsWith subpath ".html") = false := by
    cases hf : tenv.isfile subpath <;>
      cases he : String.endsWith subpath ".html" <;> simp_all
  simp [catch_all, index, hb]

/-- Witness for C8: an empty template directory and the path "missing". -/
theorem C8_catch_all_home_witness :
    ¬(tenvEmpty.isfile "missing" = true ∧
        String.endsWith "missing" ".html" = true) ∧
    catch_all tenvEmpty "missing" = index tenvEmpty := by
  have h : ¬(tenvEmpty.isfile "missing" = true ∧
      String.endsWith "missing" ".html" = true) := fun hc => Bool.noConfusion hc.1
  exact ⟨h, C8_catch_all_home tenvEmpty "missing" h⟩

/-- C9: A valid-JSON body that is not a mapping makes the input mapper's
`.get` call raise, which `predict` classifies as a pipeline failure:
status 500 with error "Prediction failed", not 400. -/
theorem C9_nonmapping_payload_500 {F : Type} (st : AppState F) (v : PyVal)
    (h : isMapping v = false) :
    (predictRoute st (some v)).status = 500 ∧
    (predictRoute st (some v)).body.lookup "error" =
      some (.rstr "Prediction failed") := by
  cases v with
  | obj fs => exact absurd h (by simp [isMapping])
  | none => exact ⟨rfl, rfl⟩
  | bool b => exact ⟨rfl, rfl⟩
  | num q => exact ⟨rfl, rfl⟩
  | str s => exact ⟨rfl, rfl⟩
  | arr xs => exact ⟨rfl, rfl⟩

/-- Witness for C9: the JSON array payload `[]`. -/
theorem C9_nonmapping_payload_500_witness :
    isMapping (PyVal.arr []) = false ∧
    ((predictRoute stUnloaded (some (.arr []))).status = 500 ∧
     (predictRoute stUnloaded (some (.arr []))).body.lookup "error" =
       some (.rstr "Prediction failed")) :=
  ⟨rfl, C9_nonmapping_payload_500 stUnloaded (.arr []) rfl⟩

/-- Counterexample to C2 as stated: in fallback mode a truthy non-numeric
price such as `"abc"` is NOT treated as zero — `float("abc")` raises, the
error path is taken and `/predict` answers 500, not the three scores. -/
theorem C2_counterexample :
    (predictRoute stUnloaded (some (.obj [("price", .str "abc")]))).status = 500 ∧
    predict_all_targets stUnloaded
        { plasticType := .none, condition := .none, weightKg := .none,
          ageMonths := .none, originalPrice := .str "abc", location := .none } =
      .error "could not convert string to float: abc" :=
  ⟨rfl, rfl⟩

/-- C2 as amended: in fallback mode `predict` returns the three scores with
status 200 whenever each of price, weight and age is missing, falsy, a
number, or a parseable numeric string; only a truthy non-numeric value
takes the error path. -/
theorem C2_amended_fallback_total {F : Type} (st : AppState F)
    (h : st.models_loaded = false) (fs : List (String × PyVal))
    (hp : fallbackCoercible ((fs.lookup "price").getD .none))
    (hw : fallbackCoercible ((fs.lookup "weight").getD .none))
    (ha : fallbackCoercible ((fs.lookup "age").getD .none)) :
    ∃ l, runPipeline st (.obj fs) = .ok l ∧
      l.map Prod.fst = ["Resale_Value", "Recycle_Value", "Reuse_Score"] ∧
      (predictRoute st (some (.obj fs))).status = 200 := by
  obtain ⟨l, hl, hkeys⟩ :=
    @fallbackPredict_ok_of_coercible
      { plasticType := (fs.lookup "ptype").getD .none,
        condition := (fs.lookup "condition").getD .none,
        weightKg := (fs.lookup "weight").getD .none,
        ageMonths := (fs.lookup "age").getD .none,
        originalPrice := (fs.lookup "price").getD .none,
        location := (fs.lookup "location").getD .none } hp hw ha
  have hrun : runPipeline st (.obj fs) = .ok l := by
    unfold runPipeline
    rw [build_input_df_obj fs]
    show predict_all_targets st _ = _
    rw [predict_all_targets_fallback st h]
    exact hl
  refine ⟨l, hrun, hkeys, ?_⟩
  simp only [predictRoute, hrun]

/-- Witness for C2 (amended): the empty payload `{}` (all fields missing)
in the unloaded state gets the three scores with status 200. -/
theorem C2_amended_fallback_total_witness :
    stUnloaded.models_loaded = false ∧
    ∃ l, runPipeline stUnloaded (.obj []) = .ok l ∧
      l.map Prod.fst = ["Resale_Value", "Recycle_Value", "Reuse_Score"] ∧
      (predictRoute stUnloaded (some (.obj []))).status = 200 :=
  ⟨rfl, C2_amended_fallback_total stUnloaded rfl []
    (Or.inl rfl) (Or.inl rfl) (Or.inl rfl)⟩

/-- C4: `POST /predict` answers 400 `Invalid JSON` when the body fails to
parse, 500 `Prediction failed` with the exception message when the
mapper-plus-pipeline step raises, and otherwise 200 with exactly the keys
`resale_value`, `recycle_score`, `reuse_score` (the renamed pipeline
outputs) and `models_loaded`. -/
theorem C4_predict_route_contract {F : Type} (st : AppState F)
    (body : Option PyVal) :
    (body = Option.none →
      predictRoute st body =
        { status := 400, body := [("error", .rstr "Invalid JSON")] }) ∧
    (∀ p e, body = some p → runPipeline st p = .error e →
      predictRoute st body =
        { status := 500,
          body := [("error", .rstr "Prediction failed"),
                   ("details", .rstr e)] }) ∧
    (∀ p preds, body = some p → runPipeline st p = .ok preds →
      predictRoute st body =
        { status := 200,
          body := [("resale_value", optNum (preds.lookup "Resale_Value")),
                   ("recycle_score", optNum (preds.lookup "Recycle_Value")),
                   ("reuse_score", optNum (preds.lookup "Reuse_Score")),
                   ("models_loaded", .rbool st.models_loaded)] }) := by
  refine ⟨?_, ?_, ?_⟩
  · rintro rfl
    rfl
  · rintro p e rfl hrun
    simp only [predictRoute, hrun]
  · rintro p preds rfl hrun
    simp only [predictRoute, hrun]

/-- Witness for C4: all three cases exercised at concrete inputs — a
non-JSON body, the non-mapping payload `1`, and the empty mapping. -/
theorem C4_predict_route_contract_witness :
    predictRoute stUnloaded Option.none =
      { status := 400, body := [("error", .rstr "Invalid JSON")] } ∧
    predictRoute stUnloaded (some (.num 1)) =
      { status := 500,
        body := [("error", .rstr "Prediction failed"),
                 ("details", .rstr "object has no attribute get")] } ∧
    predictRoute stUnloaded (some (.obj [])) =
      { status := 200,
        body := [("resale_value", optNum (fbZeroPreds.lookup "Resale_Value")),
                 ("recycle_score", optNum (fbZeroPreds.lookup "Recycle_Value")),
                 ("reuse_score", optNum (fbZeroPreds.lookup "Reuse_Score")),
                 ("models_loaded", .rbool stUnloaded.models_loaded)] } :=
  ⟨(C4_predict_route_contract stUnloaded Option.none).1 rfl,
   (C4_predict_route_contract stUnloaded (some (.num 1))).2.1
     (.num 1) "object has no attribute get" rfl rfl,
   (C4_predict_route_contract stUnloaded (some (.obj []))).2.2
     (.obj []) fbZeroPreds rfl rfl⟩

/-- C5: After the one startup load attempt, the loaded flag is true iff the
preprocessing artifact and all three models deserialized successfully, and
the pipeline takes the model-backed branch iff that flag is true. (The
pipeline itself is a pure function of the state, so no mode change can
occur during a prediction call.) -/
theorem C5_loaded_invariant {F : Type} (env : LoadEnv F) :
    ((try_load_models env (initState F)).models_loaded = true ↔
      (env.isfile PREPROCESSOR_PKL = true ∧
        (env.loadPre PREPROCESSOR_PKL).isSome = true ∧
        ∀ kp ∈ MODEL_FILES,
          env.isfile kp.2 = true ∧ (env.loadModel kp.2).isSome = true)) ∧
    usesModelBranch (try_load_models env (initState F)) =
      (try_load_models env (initState F)).models_loaded :=
  try_load_models_spec env

/-- Counterexample to C6 as stated: with the preprocessor and first model
present but the second model file missing, the bundle ends unloaded but the
partially loaded artifacts are retained — the preprocessor is kept and the
model mapping holds one entry, not none. -/
theorem C6_counterexample :
    (try_load_models envPartial (initState Unit)).models_loaded = false ∧
    (try_load_models envPartial (initState Unit)).preprocessor.isSome = true ∧
    (try_load_models envPartial (initState Unit)).models.length = 1 :=
  ⟨rfl, rfl, rfl⟩

/-- C6 as amended: if any of the four artifact files is missing or fails to
deserialize, `try_load_models` ends in the unloaded state (and the pipeline
cannot take the model-backed branch); no exception escapes, the function
totally returns a state. Artifacts loaded before the failure are retained
in the globals, though never used while the flag is false. -/
theorem C6_amended_load_failure {F : Type} (env : LoadEnv F)
    (h : ¬(env.isfile PREPROCESSOR_PKL = true ∧
        (env.loadPre PREPROCESSOR_PKL).isSome = true ∧
        ∀ kp ∈ MODEL_FILES,
          env.isfile kp.2 = true ∧ (env.loadModel kp.2).isSome = true)) :
    (try_load_models env (initState F)).models_loaded = false ∧
    usesModelBranch (try_load_models env (initState F)) = false := by
  have hspec := try_load_models_spec env
  have hfalse : (try_load_models env (initState F)).models_loaded = false := by
    cases hb : (try_load_models env (initState F)).models_loaded
    · rfl
    · exact absurd (hspec.1.mp hb) h
  exact ⟨hfalse, by rw [hspec.2, hfalse]⟩

/-- Witness for C6 (amended): with no artifact file on disk the bundle is
unloaded and the model-backed branch is off. -/
theorem C6_amended_load_failure_witness :
    (try_load_models envEmpty (initState Unit)).models_loaded = false ∧
    usesModelBranch (try_load_models envEmpty (initState Unit)) = false :=
  C6_amended_load_failure envEmpty (fun hc => Bool.noConfusion hc.1)

/-- C10: A present-but-falsy price/weight/age value (None, 0, "", false) is
coerced to zero before the fallback formulas, and a parseable numeric
string is parsed to its numeric value, so string-typed numbers are accepted
by the fallback. -/
theorem C10_falsy_and_string_coercion :
    (coerceNumField .none = .ok 0 ∧ coerceNumField (.num 0) = .ok 0 ∧
     coerceNumField (.str "") = .ok 0 ∧ coerceNumField (.bool false) = .ok 0) ∧
    (∀ (s : String) (q : ℚ), parsePyFloat s = some q →
      coerceNumField (.str s) = .ok q) ∧
    (∀ (pt c loc : PyVal) (s : String) (q a w : ℚ), parsePyFloat s = some q →
      fallbackPredict
          { plasticType := pt, condition := c, weightKg := .num w,
            ageMonths := .num a, originalPrice := .str s, location := loc } =
        fallbackPredict
          { plasticType := pt, condition := c, weightKg := .num w,
            ageMonths := .num a, originalPrice := .num q, location := loc }) := by
  refine ⟨⟨rfl, coerceNumField_num 0, rfl, rfl⟩,
          fun s q h => coerceNumField_str_parsed h, ?_⟩
  intro pt c loc s q a w h
  unfold fallbackPredict
  dsimp only
  rw [coerceNumField_str_parsed h, coerceNumField_num q]

/-- Witness for C10: the numeric string "5" parses to 5 and is coerced by
the fallback to the number 5. -/
theorem C10_falsy_and_string_coercion_witness :
    parsePyFloat "5" = some 5 ∧ coerceNumField (.str "5") = .ok 5 := by
  have h5 : parsePyFloat "5" = some 5 := by
    rw [show parsePyFloat "5" = some (decToRat 5 (Int.ofNat 0)) from rfl,
        decToRat_ofNat]
    norm_num
  exact ⟨h5, C10_falsy_and_string_coercion.2.1 "5" 5 h5⟩

end App
